import Mathlib

/-!
Verification development for the PixelGL engine (src/js/PixelGL.js).

The JavaScript class is shallowly embedded: the mutable instance becomes an
explicit `State` record, `Uint8Array` writes become `List Nat` updates with the
JS `ToUint8` (mod 256) conversion, out-of-range typed-array writes are ignored
and out-of-range reads yield `none` (JS `undefined`), console diagnostics
become an explicit `Diag` list, and the asynchronous shader pipeline is a
function of an environment (`GLEnv`) describing the fetch, compile and link
outcomes, returning in `Except Unit` so that a propagated JS exception
(a rejected awaited promise) is `Except.error ()`.  Matrix arithmetic is
modelled over `ℚ`.  GPU-side calls that do not touch the instance's own
fields (texture binds, buffer uploads, uniform uploads, draw calls) have no
counterpart in `State`.
-/

namespace PixelGL

/-- WebGL numeric constant `gl.VERTEX_SHADER`. -/
def GL_VERTEX_SHADER : Nat := 35633

/-- WebGL numeric constant `gl.FRAGMENT_SHADER`. -/
def GL_FRAGMENT_SHADER : Nat := 35632

/-- JS truthiness of a number: nonzero numbers are truthy. -/
def jsTruthy (n : Nat) : Bool := n != 0

/-- JS `ToUint8` conversion applied when an integer is stored into a
`Uint8Array` element: the value modulo 2^8, always in `0..255`. -/
def toUint8 (v : ℤ) : Nat := (v % 256).toNat

/-- A write `data[i] = v` into a `Uint8Array`: in-range integer indices store
`ToUint8 v`; out-of-range (negative or past the end) writes are ignored.
`List.set` is itself the identity past the end of the list. -/
def writeByte (data : List Nat) (i : ℤ) (v : ℤ) : List Nat :=
  if 0 ≤ i then data.set i.toNat (toUint8 v) else data

/-- A read `data[i]` from a `Uint8Array`: in-range indices give the stored
byte, out-of-range indices give `undefined`, modelled as `none`. -/
def readByte (data : List Nat) (i : ℤ) : Option Nat :=
  if 0 ≤ i then data[i.toNat]? else none

/-- The record returned by `getPixel`: `{x, y, red, green, blue, alpha}`.
Channels are `Option Nat` because an out-of-range read yields `undefined`. -/
structure Pixel where
  x : ℤ
  y : ℤ
  red : Option Nat
  green : Option Nat
  blue : Option Nat
  alpha : Option Nat
deriving Repr, DecidableEq

/-- The mutable fields of a `PixelGL` instance that the verified operations
touch.  `data` is the `Uint8Array` pixel buffer; `program` stands for the
opaque WebGL program handle.  Fields the failed constructor leaves undefined
are modelled by their zero defaults. -/
structure State where
  safe : Bool
  initialized : Bool
  width : Nat
  height : Nat
  data : List Nat
  program : Option Unit
  lastRenderDuration : ℚ
  lastRenderEnded : ℚ
deriving Repr

/-- Environment for the constructor: whether `document.querySelector` finds
the canvas, and whether `getContext("webgl")` succeeds. -/
structure ConstructEnv where
  canvasFound : Bool
  contextOk : Bool
deriving Repr, DecidableEq

/-- `constructor(canvasID, width, height)`: returns early with `safe = false`
if the canvas or the WebGL context is unavailable; otherwise allocates the
zero-filled pixel buffer of `width * height * 4` bytes (`pixelCount * 4`,
RGBA), creates the empty texture, and sets `safe = true`. -/
def construct (env : ConstructEnv) (width height : Nat) : State :=
  if env.canvasFound = false then
    { safe := false, initialized := false, width := 0, height := 0,
      data := [], program := none, lastRenderDuration := 0, lastRenderEnded := 0 }
  else if env.contextOk = false then
    { safe := false, initialized := false, width := 0, height := 0,
      data := [], program := none, lastRenderDuration := 0, lastRenderEnded := 0 }
  else
    { safe := true, initialized := false, width := width, height := height,
      data := List.replicate (width * height * 4) 0, program := none,
      lastRenderDuration := 0, lastRenderEnded := 0 }

/-- `setPixel(x, y, red, green, blue, alpha)`: four consecutive unchecked
byte writes at index `((y * width) + x) * 4`. -/
def setPixel (p : State) (x y red green blue alpha : ℤ) : State :=
  let index := ((y * (p.width : ℤ)) + x) * 4
  let d0 := writeByte p.data (index + 0) red
  let d1 := writeByte d0 (index + 1) green
  let d2 := writeByte d1 (index + 2) blue
  let d3 := writeByte d2 (index + 3) alpha
  { p with data := d3 }

/-- `getPixel(x, y)`: four consecutive unchecked byte reads at index
`((y * width) + x) * 4`, returned as a `{x, y, red, green, blue, alpha}`
record. -/
def getPixel (p : State) (x y : ℤ) : Pixel :=
  let index := ((y * (p.width : ℤ)) + x) * 4
  { x := x, y := y,
    red := readByte p.data (index + 0),
    green := readByte p.data (index + 1),
    blue := readByte p.data (index + 2),
    alpha := readByte p.data (index + 3) }

/-- The console diagnostics the embedded operations can emit, with the
values the source interpolates into each message captured as fields. -/
inductive Diag where
  | loadMismatch
  | fetchError (uri : String) (statusText : String) (status : Nat)
  | compileError (shaderName : String) (info : String)
  | couldNotCompile
  | couldNotLoad
  | linkError (info : String)
  | programCreateError
deriving Repr, DecidableEq

/-- The element-wise copy loop of `loadPixelData`: for each index `i` below
the buffer's length, `data[i] = source[i]` (a `Uint8Array` store). -/
def storeBytes : List Nat → List ℤ → List Nat
  | _ :: ds, v :: ss => toUint8 v :: storeBytes ds ss
  | ds, [] => ds
  | [], _ :: _ => []

/-- `loadPixelData(source)`: if `source.length != data.length`, logs a
diagnostic and returns with the buffer untouched; otherwise copies `source`
into the buffer element by element. -/
def loadPixelData (p : State) (source : List ℤ) : State × List Diag :=
  if source.length ≠ p.data.length then (p, [Diag.loadMismatch])
  else ({ p with data := storeBytes p.data source }, [])

/-- `render()`: uploads the buffer to the texture and draws (no instance
fields touched by either), then records the timing fields from the two
`performance.now()` readings. -/
def render (p : State) (renderBegin renderFinish : ℚ) : State :=
  { p with lastRenderDuration := renderFinish - renderBegin,
           lastRenderEnded := renderFinish }

/-- `createOrthographicMatrix()`: the 16-entry column-major orthographic
matrix with `left = 0`, `right = canvas width`, `bottom = canvas height`,
`top = 0`, `near = -1`, `far = 1`, entry by entry as the source writes
`out[0] .. out[15]`. -/
def createOrthographicMatrix (width height : ℚ) : List ℚ :=
  let left : ℚ := 0
  let right : ℚ := width
  let bottom : ℚ := height
  let top : ℚ := 0
  let near : ℚ := -1
  let far : ℚ := 1
  [2 / (right - left), 0, 0, 0,
   0, 2 / (top - bottom), 0, 0,
   0, 0, 2 / (near - far), 0,
   (left + right) / (left - right),
   (bottom + top) / (bottom - top),
   (near + far) / (near - far), 1]

/-- `translateMatrix(src, tx, ty)`: copies the first twelve entries of `src`
and rebuilds the fourth row as `src[0..3]*tx + src[4..7]*ty + src[8..11]
+ src[12..15]` — note the third-row terms are added unmultiplied, exactly as
in the source. -/
def translateMatrix (src : List ℚ) (tx ty : ℚ) : List ℚ :=
  let src00 := src.getD 0 0
  let src01 := src.getD 1 0
  let src02 := src.getD 2 0
  let src03 := src.getD 3 0
  let src10 := src.getD (1 * 4 + 0) 0
  let src11 := src.getD (1 * 4 + 1) 0
  let src12 := src.getD (1 * 4 + 2) 0
  let src13 := src.getD (1 * 4 + 3) 0
  let src20 := src.getD (2 * 4 + 0) 0
  let src21 := src.getD (2 * 4 + 1) 0
  let src22 := src.getD (2 * 4 + 2) 0
  let src23 := src.getD (2 * 4 + 3) 0
  let src30 := src.getD (3 * 4 + 0) 0
  let src31 := src.getD (3 * 4 + 1) 0
  let src32 := src.getD (3 * 4 + 2) 0
  let src33 := src.getD (3 * 4 + 3) 0
  [src00, src01, src02, src03,
   src10, src11, src12, src13,
   src20, src21, src22, src23,
   src00 * tx + src10 * ty + src20 + src30,
   src01 * tx + src11 * ty + src21 + src31,
   src02 * tx + src12 * ty + src22 + src32,
   src03 * tx + src13 * ty + src23 + src33]

/-- `scaleMatrix(src, sx, sy)`: scales the first row by `sx`, the second by
`sy`, and copies the rest. -/
def scaleMatrix (src : List ℚ) (sx sy : ℚ) : List ℚ :=
  [sx * src.getD (0 * 4 + 0) 0, sx * src.getD (0 * 4 + 1) 0,
   sx * src.getD (0 * 4 + 2) 0, sx * src.getD (0 * 4 + 3) 0,
   sy * src.getD (1 * 4 + 0) 0, sy * src.getD (1 * 4 + 1) 0,
   sy * src.getD (1 * 4 + 2) 0, sy * src.getD (1 * 4 + 3) 0,
   src.getD (2 * 4 + 0) 0, src.getD (2 * 4 + 1) 0,
   src.getD (2 * 4 + 2) 0, src.getD (2 * 4 + 3) 0,
   src.getD 12 0, src.getD 13 0, src.getD 14 0, src.getD 15 0]

/-- Right multiplication by the translation matrix `T(tx, ty)` (the z
translation being 0), stated from the spec's words for comparison with
`translateMatrix`: the fourth row becomes
`tx*row0 + ty*row1 + row3` and the upper rows are unchanged. -/
def specTranslate (src : List ℚ) (tx ty : ℚ) : List ℚ :=
  [src.getD 0 0, src.getD 1 0, src.getD 2 0, src.getD 3 0,
   src.getD 4 0, src.getD 5 0, src.getD 6 0, src.getD 7 0,
   src.getD 8 0, src.getD 9 0, src.getD 10 0, src.getD 11 0,
   src.getD 0 0 * tx + src.getD 4 0 * ty + src.getD 12 0,
   src.getD 1 0 * tx + src.getD 5 0 * ty + src.getD 13 0,
   src.getD 2 0 * tx + src.getD 6 0 * ty + src.getD 14 0,
   src.getD 3 0 * tx + src.getD 7 0 * ty + src.getD 15 0]

/-- The 4x4 identity matrix in the same flat 16-entry layout. -/
def identityMatrix4 : List ℚ :=
  [1, 0, 0, 0, 0, 1, 0, 0, 0, 0, 1, 0, 0, 0, 0, 1]

/-- Outcome of one `fetch(uri)`: the promise either rejects (a network-level
failure) or resolves to a response with a status, status text and body. -/
inductive FetchResult where
  | rejected
  | resolved (status : Nat) (statusText : String) (body : String)
deriving Repr, DecidableEq

/-- Environment for the shader pipeline: the two fetch outcomes, the
compiler's verdict and info log per (source, shader type), and the linker's
verdict and info log. -/
structure GLEnv where
  fetchVertex : FetchResult
  fetchFragment : FetchResult
  compileOk : String → Nat → Bool
  compileInfo : String → Nat → String
  linkOk : Bool
  linkInfo : String

/-- A compiled shader object: its WebGL type and the source it was built
from. -/
structure ShaderObj where
  shaderType : Nat
  source : String
deriving Repr, DecidableEq

/-- `compileShader(shaderSource, shaderType)`: returns the shader on
success; on failure logs a diagnostic naming the stage and the compiler's
info log, deletes the shader and returns `null`.  The stage name mirrors the
source's ternary chain, whose conditions are the ASSIGNMENTS
`shaderType = this.gl.VERTEX_SHADER` and `shaderType = this.gl.FRAGMENT_SHADER`:
each condition's value is the (truthy) constant just assigned, so the chain
reduces to the truthiness of `GL_VERTEX_SHADER`. -/
def compileShader (env : GLEnv) (shaderSource : String) (shaderType : Nat) :
    Option ShaderObj × List Diag :=
  let compiled := env.compileOk shaderSource shaderType
  if compiled then (some ⟨shaderType, shaderSource⟩, [])
  else
    let shaderName :=
      if jsTruthy GL_VERTEX_SHADER then "vertex shader"
      else if jsTruthy GL_FRAGMENT_SHADER then "fragement shader"
      else "unknown"
    (none, [Diag.compileError shaderName (env.compileInfo shaderSource shaderType)])

/-- `compileShaders(vertexShaderURI, fragementShaderURI)`: awaits both
fetches (`Promise.all` — a rejected fetch makes the `await` throw, which
propagates as `Except.error`), then checks each response's status in order;
the failure log interpolates `vertexShaderURI` for BOTH loop iterations,
exactly as the source's template does.  With both statuses 200, compiles
both stages and returns them, or logs and returns `null` if either compile
failed. -/
def compileShaders (env : GLEnv) (vertexShaderURI fragementShaderURI : String) :
    Except Unit (Option (List ShaderObj) × List Diag) :=
  match env.fetchVertex, env.fetchFragment with
  | FetchResult.rejected, _ => Except.error ()
  | _, FetchResult.rejected => Except.error ()
  | FetchResult.resolved vStatus vStatusText vBody,
    FetchResult.resolved fStatus fStatusText fBody =>
    if vStatus ≠ 200 then
      Except.ok (none, [Diag.fetchError vertexShaderURI vStatusText vStatus])
    else if fStatus ≠ 200 then
      Except.ok (none, [Diag.fetchError vertexShaderURI fStatusText fStatus])
    else
      let vres := compileShader env vBody GL_VERTEX_SHADER
      let fres := compileShader env fBody GL_FRAGMENT_SHADER
      match vres.1, fres.1 with
      | some v, some f => Except.ok (some [v, f], vres.2 ++ fres.2)
      | _, _ => Except.ok (none, vres.2 ++ fres.2 ++ [Diag.couldNotCompile])

/-- `createShaderProgram(vertexShaderURI, fragementShaderURI)`: logs and
returns `null` when `compileShaders` does; otherwise creates the program,
attaches the shaders and links, logging and deleting the program on a link
failure. -/
def createShaderProgram (env : GLEnv) (vertexShaderURI fragementShaderURI : String) :
    Except Unit (Option Unit × List Diag) :=
  match compileShaders env vertexShaderURI fragementShaderURI with
  | Except.error e => Except.error e
  | Except.ok (none, logs) => Except.ok (none, logs ++ [Diag.couldNotLoad])
  | Except.ok (some _, logs) =>
    if env.linkOk then Except.ok (some (), logs)
    else Except.ok (none, logs ++ [Diag.linkError env.linkInfo])

/-- `initialize(vertexShaderURI, fragementShaderURI)`: stores the program
from `createShaderProgram`, logging and returning early when it is `null`;
on success wires the geometry buffers, uploads the matrix (local values, no
instance fields) and sets `initialized = true`. -/
def initializeGL (env : GLEnv) (p : State) (vertexShaderURI fragementShaderURI : String) :
    Except Unit (State × List Diag) :=
  match createShaderProgram env vertexShaderURI fragementShaderURI with
  | Except.error e => Except.error e
  | Except.ok (none, logs) =>
    Except.ok ({ p with program := none }, logs ++ [Diag.programCreateError])
  | Except.ok (some pr, logs) =>
    Except.ok ({ p with program := some pr, initialized := true }, logs)

/-! ### Concrete fixtures used to instantiate the theorems -/

/-- A constructor environment where the canvas and context are available. -/
def ctorEnvOk : ConstructEnv := { canvasFound := true, contextOk := true }

/-- A small successfully constructed instance (width 2, height 2). -/
def p0 : State := construct ctorEnvOk 2 2

/-- A pipeline environment in which both fetches resolve with status 200,
both stages compile and the program links. -/
def goodEnv : GLEnv :=
  { fetchVertex := FetchResult.resolved 200 "OK" "vsrc",
    fetchFragment := FetchResult.resolved 200 "OK" "fsrc",
    compileOk := fun _ _ => true, compileInfo := fun _ _ => "",
    linkOk := true, linkInfo := "" }

/-- The state `initializeGL goodEnv p0` produces. -/
def q0 : State := { p0 with program := some (), initialized := true }

/-- A 16-byte source matching `p0`'s buffer length. -/
def src16 : List ℤ :=
  [10, 20, 30, 40, 50, 60, 70, 80, 90, 100, 110, 120, 130, 140, 150, 160]

/-- A pipeline environment whose vertex fetch rejects at the network
level (the promise itself rejects, no response status). -/
def rejectEnv : GLEnv :=
  { fetchVertex := FetchResult.rejected,
    fetchFragment := FetchResult.resolved 200 "OK" "fsrc",
    compileOk := fun _ _ => true, compileInfo := fun _ _ => "",
    linkOk := true, linkInfo := "" }

/-- A pipeline environment where the vertex fetch succeeds but the
fragment fetch resolves with status 404. -/
def frag404Env : GLEnv :=
  { fetchVertex := FetchResult.resolved 200 "OK" "vsrc",
    fetchFragment := FetchResult.resolved 404 "Not Found" "",
    compileOk := fun _ _ => true, compileInfo := fun _ _ => "",
    linkOk := true, linkInfo := "" }

/-- A pipeline environment where both fetches succeed but every shader
compilation fails with the info log "compile failed". -/
def failCompileEnv : GLEnv :=
  { fetchVertex := FetchResult.resolved 200 "OK" "vsrc",
    fetchFragment := FetchResult.resolved 200 "OK" "fsrc",
    compileOk := fun _ _ => false, compileInfo := fun _ _ => "compile failed",
    linkOk := true, linkInfo := "" }

/-! ### Basic lemmas about the byte-buffer primitives -/

lemma length_writeByte (data : List Nat) (i : ℤ) (v : ℤ) :
    (writeByte data i v).length = data.length := by
  unfold writeByte
  split <;> simp

lemma readByte_writeByte_self (data : List Nat) (i : ℤ) (v : ℤ)
    (h0 : 0 ≤ i) (h1 : i.toNat < data.length) :
    readByte (writeByte data i v) i = some (toUint8 v) := by
  unfold readByte writeByte
  simp [h0, List.getElem?_set_self h1]

lemma readByte_writeByte_ne (data : List Nat) (i j : ℤ) (v : ℤ) (hne : i ≠ j) :
    readByte (writeByte data j v) i = readByte data i := by
  unfold readByte writeByte
  by_cases hj : 0 ≤ j
  · by_cases hi : 0 ≤ i
    · have : i.toNat ≠ j.toNat := by omega
      simp [hi, hj, List.getElem?_set_ne (Ne.symm this)]
    · simp [hi, hj]
  · simp [hj]

lemma length_storeBytes (data : List Nat) (source : List ℤ) :
    (storeBytes data source).length = data.length := by
  induction source generalizing data with
  | nil => cases data <;> simp [storeBytes]
  | cons v ss ih =>
    cases data with
    | nil => simp [storeBytes]
    | cons d ds => simp [storeBytes, ih]

lemma storeBytes_eq_map (data : List Nat) (source : List ℤ)
    (h : data.length = source.length) :
    storeBytes data source = source.map toUint8 := by
  induction source generalizing data with
  | nil =>
    cases data with
    | nil => simp [storeBytes]
    | cons d ds => simp at h
  | cons v ss ih =>
    cases data with
    | nil => simp at h
    | cons d ds =>
      simp only [List.length_cons, Nat.succ.injEq] at h
      simp [storeBytes, ih ds h]

/-- The four bytes written by `setPixel` are read back by `getPixel` at the
same in-bounds coordinates, each channel reduced by the `Uint8Array` store
conversion `toUint8`. -/
lemma getPixel_setPixel (p : State) (x y r g b a : ℤ)
    (hlen : p.data.length = p.width * p.height * 4)
    (hx0 : 0 ≤ x) (hx : x < (p.width : ℤ))
    (hy0 : 0 ≤ y) (hy : y < (p.height : ℤ)) :
    getPixel (setPixel p x y r g b a) x y =
      { x := x, y := y, red := some (toUint8 r), green := some (toUint8 g),
        blue := some (toUint8 b), alpha := some (toUint8 a) } := by
  have hw0 : (0 : ℤ) ≤ (p.width : ℤ) := Int.natCast_nonneg _
  have hh0 : (0 : ℤ) ≤ (p.height : ℤ) := Int.natCast_nonneg _
  have hlenZ : (p.data.length : ℤ) = (p.width : ℤ) * (p.height : ℤ) * 4 := by
    rw [hlen]; push_cast; ring
  simp only [getPixel, setPixel]
  set i : ℤ := (y * (p.width : ℤ) + x) * 4 with hidef
  have hi0 : 0 ≤ i := by
    have := mul_nonneg hy0 hw0
    rw [hidef]; linarith
  have hibound : i + 3 < (p.data.length : ℤ) := by
    rw [hlenZ, hidef]
    nlinarith
  have hL0 : (writeByte p.data (i + 0) r).length = p.data.length :=
    length_writeByte ..
  have hL1 : (writeByte (writeByte p.data (i + 0) r) (i + 1) g).length
      = p.data.length := by rw [length_writeByte, hL0]
  have hL2 : (writeByte (writeByte (writeByte p.data (i + 0) r) (i + 1) g)
      (i + 2) b).length = p.data.length := by rw [length_writeByte, hL1]
  simp only [Pixel.mk.injEq, true_and]
  refine ⟨?_, ?_, ?_, ?_⟩
  · rw [readByte_writeByte_ne _ _ _ _ (by omega),
      readByte_writeByte_ne _ _ _ _ (by omega),
      readByte_writeByte_ne _ _ _ _ (by omega),
      readByte_writeByte_self _ _ _ (by omega) (by omega)]
  · rw [readByte_writeByte_ne _ _ _ _ (by omega),
      readByte_writeByte_ne _ _ _ _ (by omega),
      readByte_writeByte_self _ _ _ (by omega) (by omega)]
  · rw [readByte_writeByte_ne _ _ _ _ (by omega),
      readByte_writeByte_self _ _ _ (by omega) (by omega)]
  · rw [readByte_writeByte_self _ _ _ (by omega) (by omega)]

/-! ### Claim theorems -/

/-- C1: for every instance whose buffer has its constructed length
`width * height * 4`, for all in-bounds coordinates and channel values in
`0..255`, `getPixel(x, y)` immediately after `setPixel(x, y, r, g, b, a)`
returns exactly the record `{x, y, red: r, green: g, blue: b, alpha: a}`. -/
theorem setPixel_getPixel_roundtrip (p : State) (x y r g b a : ℤ)
    (hlen : p.data.length = p.width * p.height * 4)
    (hx0 : 0 ≤ x) (hx : x < (p.width : ℤ))
    (hy0 : 0 ≤ y) (hy : y < (p.height : ℤ))
    (hr : 0 ≤ r ∧ r ≤ 255) (hg : 0 ≤ g ∧ g ≤ 255)
    (hb : 0 ≤ b ∧ b ≤ 255) (ha : 0 ≤ a ∧ a ≤ 255) :
    getPixel (setPixel p x y r g b a) x y =
      { x := x, y := y, red := some r.toNat, green := some g.toNat,
        blue := some b.toNat, alpha := some a.toNat } := by
  have e : ∀ v : ℤ, 0 ≤ v → v ≤ 255 → toUint8 v = v.toNat := by
    intro v h0 h1
    unfold toUint8
    rw [Int.emod_eq_of_lt h0 (by omega)]
  rw [getPixel_setPixel p x y r g b a hlen hx0 hx hy0 hy,
    e r hr.1 hr.2, e g hg.1 hg.2, e b hb.1 hb.2, e a ha.1 ha.2]

/-- Witness for C1 at the concrete instance `p0`. -/
theorem setPixel_getPixel_roundtrip_witness :
    getPixel (setPixel p0 1 0 12 34 56 78) 1 0 =
      { x := 1, y := 0, red := some 12, green := some 34,
        blue := some 56, alpha := some 78 } :=
  setPixel_getPixel_roundtrip p0 1 0 12 34 56 78 rfl (by decide) (by decide)
    (by decide) (by decide) (by decide) (by decide) (by decide) (by decide)

/-- C10: for in-bounds coordinates and arbitrary integer channel arguments,
`setPixel` stores each channel reduced modulo 256 (the `Uint8Array`
conversion), and the following `getPixel` returns the reduced bytes, not
the arguments as passed. -/
theorem setPixel_stores_mod256 (p : State) (x y r g b a : ℤ)
    (hlen : p.data.length = p.width * p.height * 4)
    (hx0 : 0 ≤ x) (hx : x < (p.width : ℤ))
    (hy0 : 0 ≤ y) (hy : y < (p.height : ℤ)) :
    getPixel (setPixel p x y r g b a) x y =
      { x := x, y := y,
        red := some (r % 256).toNat, green := some (g % 256).toNat,
        blue := some (b % 256).toNat, alpha := some (a % 256).toNat } :=
  getPixel_setPixel p x y r g b a hlen hx0 hx hy0 hy

/-- Witness for C10: red 300 is stored as 44; -1, 256 and 511 reduce to
255, 0 and 255. -/
theorem setPixel_stores_mod256_witness :
    getPixel (setPixel p0 0 1 300 (-1) 256 511) 0 1 =
      { x := 0, y := 1, red := some 44, green := some 255,
        blue := some 0, alpha := some 255 } :=
  setPixel_stores_mod256 p0 0 1 300 (-1) 256 511 rfl (by decide) (by decide)
    (by decide) (by decide)

/-- C2: `loadPixelData` with a source whose length differs from the
buffer's byte count `width * height * 4` emits the mismatch diagnostic and
leaves the state (hence every byte of the buffer) unchanged; with a
matching length and byte-valued entries, the buffer becomes byte-for-byte
equal to the source and nothing is logged. -/
theorem loadPixelData_spec (p : State) (source : List ℤ)
    (hlen : p.data.length = p.width * p.height * 4) :
    (source.length ≠ p.width * p.height * 4 →
       loadPixelData p source = (p, [Diag.loadMismatch])) ∧
    (source.length = p.width * p.height * 4 →
       (∀ v ∈ source, 0 ≤ v ∧ v < 256) →
       (loadPixelData p source).1.data = source.map Int.toNat ∧
       (loadPixelData p source).2 = []) := by
  constructor
  · intro hne
    rw [loadPixelData, if_pos]
    rw [hlen]
    exact hne
  · intro he hbytes
    have hcond : ¬ source.length ≠ p.data.length := by
      rw [hlen]
      exact not_not_intro he
    rw [loadPixelData, if_neg hcond]
    refine ⟨?_, rfl⟩
    simp only
    rw [storeBytes_eq_map p.data source (by rw [hlen, he])]
    apply List.map_congr_left
    intro v hv
    unfold toUint8
    rw [Int.emod_eq_of_lt (hbytes v hv).1 (hbytes v hv).2]

/-- Witness for C2 at `p0` (buffer length 16): a 3-byte source is rejected
with the state untouched; the 16-byte `src16` replaces the buffer. -/
theorem loadPixelData_spec_witness :
    loadPixelData p0 [1, 2, 3] = (p0, [Diag.loadMismatch]) ∧
    (loadPixelData p0 src16).1.data = src16.map Int.toNat ∧
    (loadPixelData p0 src16).2 = [] :=
  ⟨(loadPixelData_spec p0 [1, 2, 3] rfl).1 (by decide),
   (loadPixelData_spec p0 src16 rfl).2 (by decide) (by decide)⟩

/-- C9: the buffer's byte length equals `width * height * 4` after a
successful construction and is preserved by `setPixel` (any coordinates,
including out-of-range ones), `loadPixelData` (any source length), `render`
and a completed `initializeGL`. -/
theorem data_length_invariant :
    (∀ env w h, (construct env w h).safe = true →
       (construct env w h).data.length = w * h * 4) ∧
    (∀ p x y r g b a, (setPixel p x y r g b a).data.length = p.data.length) ∧
    (∀ p source, ((loadPixelData p source).1).data.length = p.data.length) ∧
    (∀ p t0 t1, (render p t0 t1).data.length = p.data.length) ∧
    (∀ env p vURI fURI q logs,
       initializeGL env p vURI fURI = Except.ok (q, logs) →
       q.data.length = p.data.length) := by
  refine ⟨?_, ?_, ?_, ?_, ?_⟩
  · intro env w h hsafe
    unfold construct at *
    by_cases h1 : env.canvasFound = false
    · simp [h1] at hsafe
    · by_cases h2 : env.contextOk = false
      · simp [h1, h2] at hsafe
      · simp [h1, h2]
  · intro p x y r g b a
    simp only [setPixel]
    rw [length_writeByte, length_writeByte, length_writeByte, length_writeByte]
  · intro p source
    unfold loadPixelData
    split <;> simp [length_storeBytes]
  · intro p t0 t1
    rfl
  · intro env p vURI fURI q logs hrun
    rcases hcp : createShaderProgram env vURI fURI with e | ⟨os, logs'⟩
    · rw [initializeGL, hcp] at hrun
      exact absurd hrun (by simp)
    · cases os with
      | none =>
        rw [initializeGL, hcp] at hrun
        simp only [Except.ok.injEq, Prod.mk.injEq] at hrun
        obtain ⟨hq, -⟩ := hrun
        rw [← hq]
      | some pr =>
        rw [initializeGL, hcp] at hrun
        simp only [Except.ok.injEq, Prod.mk.injEq] at hrun
        obtain ⟨hq, -⟩ := hrun
        rw [← hq]

/-- Witness for C9 at concrete inputs, including an out-of-range
`setPixel`, a mismatched `loadPixelData` source and a full `initializeGL`
run. -/
theorem data_length_invariant_witness :
    (construct ctorEnvOk 2 2).data.length = 2 * 2 * 4 ∧
    (setPixel p0 (-5) 99 1 2 3 4).data.length = p0.data.length ∧
    ((loadPixelData p0 [1]).1).data.length = p0.data.length ∧
    (render p0 0 1).data.length = p0.data.length ∧
    q0.data.length = p0.data.length :=
  ⟨data_length_invariant.1 ctorEnvOk 2 2 rfl,
   data_length_invariant.2.1 p0 (-5) 99 1 2 3 4,
   data_length_invariant.2.2.1 p0 [1],
   data_length_invariant.2.2.2.1 p0 0 1,
   data_length_invariant.2.2.2.2 goodEnv p0 "shaders/pixelGL.vert"
     "shaders/pixelGL.frag" q0 [] rfl⟩

/-! ### Inversion lemmas for the shader pipeline -/

lemma initializeGL_ok_some (env : GLEnv) (p : State) (vURI fURI : String)
    (q : State) (logs : List Diag)
    (hrun : initializeGL env p vURI fURI = Except.ok (q, logs))
    (hp : p.initialized = false) (hq : q.initialized = true) :
    createShaderProgram env vURI fURI = Except.ok (some (), logs) := by
  rcases hcp : createShaderProgram env vURI fURI with e | ⟨os, logs'⟩
  · rw [initializeGL, hcp] at hrun
    exact absurd hrun (by simp)
  · cases os with
    | none =>
      rw [initializeGL, hcp] at hrun
      simp only [Except.ok.injEq, Prod.mk.injEq] at hrun
      obtain ⟨hq', -⟩ := hrun
      rw [← hq'] at hq
      simp [hp] at hq
    | some pr =>
      cases pr
      rw [initializeGL, hcp] at hrun
      simp only [Except.ok.injEq, Prod.mk.injEq] at hrun
      rw [hrun.2]

lemma createShaderProgram_ok_some (env : GLEnv) (vURI fURI : String)
    (logs : List Diag)
    (h : createShaderProgram env vURI fURI = Except.ok (some (), logs)) :
    env.linkOk = true ∧
      ∃ shaders, compileShaders env vURI fURI = Except.ok (some shaders, logs) := by
  rcases hcs : compileShaders env vURI fURI with e | ⟨os, logs'⟩
  · rw [createShaderProgram, hcs] at h
    exact absurd h (by simp)
  · cases os with
    | none =>
      rw [createShaderProgram, hcs] at h
      simp at h
    | some shaders =>
      rw [createShaderProgram, hcs] at h
      by_cases hl : env.linkOk = true
      · simp only [hl, if_true, Except.ok.injEq, Prod.mk.injEq] at h
        obtain ⟨-, hlogs⟩ := h
        exact ⟨hl, shaders, by rw [hlogs]⟩
      · simp [hl] at h

lemma compileShaders_ok_some (env : GLEnv) (vURI fURI : String)
    (shaders : List ShaderObj) (logs : List Diag)
    (h : compileShaders env vURI fURI = Except.ok (some shaders, logs)) :
    (∃ st body, env.fetchVertex = FetchResult.resolved 200 st body ∧
       env.compileOk body GL_VERTEX_SHADER = true) ∧
    (∃ st body, env.fetchFragment = FetchResult.resolved 200 st body ∧
       env.compileOk body GL_FRAGMENT_SHADER = true) := by
  rcases hfv : env.fetchVertex with _ | ⟨vs, vst, vb⟩
  · rw [compileShaders, hfv] at h
    exact absurd h (by simp)
  rcases hff : env.fetchFragment with _ | ⟨fs, fst, fb⟩
  · rw [compileShaders, hfv, hff] at h
    exact absurd h (by simp)
  rw [compileShaders, hfv, hff] at h
  by_cases hvs : vs = 200
  case neg => simp [hvs] at h
  subst hvs
  by_cases hfs : fs = 200
  case neg => simp [hfs] at h
  subst hfs
  by_cases hcv : env.compileOk vb GL_VERTEX_SHADER = true
  · by_cases hcf : env.compileOk fb GL_FRAGMENT_SHADER = true
    · exact ⟨⟨vst, vb, rfl, hcv⟩, ⟨fst, fb, rfl, hcf⟩⟩
    · simp [compileShader, hcv, hcf] at h
  · simp [compileShader, hcv] at h

/-- C3: the `initialized` flag becomes true only if both shader-source
fetches resolved with the success status 200, both stages compiled, and
the program linked; any single-stage failure leaves `initialized`
false. -/
theorem initialized_requires_all_stages (env : GLEnv) (p : State)
    (vURI fURI : String) (hp : p.initialized = false) (q : State)
    (logs : List Diag)
    (hrun : initializeGL env p vURI fURI = Except.ok (q, logs))
    (hq : q.initialized = true) :
    (∃ st body, env.fetchVertex = FetchResult.resolved 200 st body ∧
       env.compileOk body GL_VERTEX_SHADER = true) ∧
    (∃ st body, env.fetchFragment = FetchResult.resolved 200 st body ∧
       env.compileOk body GL_FRAGMENT_SHADER = true) ∧
    env.linkOk = true := by
  have h1 := initializeGL_ok_some env p vURI fURI q logs hrun hp hq
  obtain ⟨hl, shaders, h3⟩ := createShaderProgram_ok_some env vURI fURI logs h1
  have h4 := compileShaders_ok_some env vURI fURI shaders logs h3
  exact ⟨h4.1, h4.2, hl⟩

/-- Witness for C3 at the all-success environment `goodEnv`. -/
theorem initialized_requires_all_stages_witness :
    (∃ st body, goodEnv.fetchVertex = FetchResult.resolved 200 st body ∧
       goodEnv.compileOk body GL_VERTEX_SHADER = true) ∧
    (∃ st body, goodEnv.fetchFragment = FetchResult.resolved 200 st body ∧
       goodEnv.compileOk body GL_FRAGMENT_SHADER = true) ∧
    goodEnv.linkOk = true :=
  initialized_requires_all_stages goodEnv p0 "shaders/pixelGL.vert"
    "shaders/pixelGL.frag" rfl q0 [] rfl rfl

/-- C6 counterexample: when the vertex-shader fetch rejects at the network
level, `initialize` does not complete with a diagnostic — the rejection
propagates out of the call as an exception (`Except.error`). -/
theorem initialize_rejected_fetch_throws :
    initializeGL rejectEnv p0 "shaders/pixelGL.vert" "shaders/pixelGL.frag"
      = Except.error () := rfl

/-- C6 (amended): provided both shader-source fetches themselves resolve
(with any status), `initialize` completes normally; the remaining public
operations are total functions of the state and never throw. -/
theorem no_throw_when_fetches_resolve (env : GLEnv) (p : State)
    (vURI fURI : String)
    (hv : env.fetchVertex ≠ FetchResult.rejected)
    (hf : env.fetchFragment ≠ FetchResult.rejected) :
    ∃ q logs, initializeGL env p vURI fURI = Except.ok (q, logs) := by
  rcases hfv : env.fetchVertex with _ | ⟨vs, vst, vb⟩
  · exact absurd hfv hv
  rcases hff : env.fetchFragment with _ | ⟨fs, fst, fb⟩
  · exact absurd hff hf
  have hcs : ∃ out, compileShaders env vURI fURI = Except.ok out := by
    rw [compileShaders, hfv, hff]
    by_cases hvs : vs = 200
    · by_cases hfs : fs = 200
      · by_cases hcv : env.compileOk vb GL_VERTEX_SHADER = true
        · by_cases hcf : env.compileOk fb GL_FRAGMENT_SHADER = true
          · simp [hvs, hfs, compileShader, hcv, hcf]
          · simp [hvs, hfs, compileShader, hcv, hcf]
        · by_cases hcf : env.compileOk fb GL_FRAGMENT_SHADER = true
          · simp [hvs, hfs, compileShader, hcv, hcf]
          · simp [hvs, hfs, compileShader, hcv, hcf]
      · simp [hvs, hfs]
    · simp [hvs]
  obtain ⟨⟨os, lgs⟩, hcs⟩ := hcs
  have hcsp : ∃ out, createShaderProgram env vURI fURI = Except.ok out := by
    rw [createShaderProgram, hcs]
    cases os with
    | none => exact ⟨_, rfl⟩
    | some shaders =>
      by_cases hl : env.linkOk = true
      · simp [hl]
      · simp [hl]
  obtain ⟨⟨os', lgs'⟩, hcsp⟩ := hcsp
  rw [initializeGL, hcsp]
  cases os' with
  | none => exact ⟨_, _, rfl⟩
  | some pr => exact ⟨_, _, rfl⟩

/-- Witness for C6 (amended): a non-success fragment status still returns
normally (with diagnostics, not an exception). -/
theorem no_throw_when_fetches_resolve_witness :
    ∃ q logs, initializeGL frag404Env p0 "shaders/pixelGL.vert"
      "shaders/pixelGL.frag" = Except.ok (q, logs) :=
  no_throw_when_fetches_resolve frag404Env p0 "shaders/pixelGL.vert"
    "shaders/pixelGL.frag" (by decide) (by decide)

/-- C7 (code bug): a failed FRAGMENT-stage compilation is reported as
"vertex shader" — the stage-name ternary's conditions are assignments, so
the first (truthy) branch is always taken. -/
theorem compile_diag_always_vertex :
    (compileShader failCompileEnv "fsrc" GL_FRAGMENT_SHADER).2 =
      [Diag.compileError "vertex shader" "compile failed"] ∧
    GL_FRAGMENT_SHADER ≠ GL_VERTEX_SHADER :=
  ⟨rfl, by decide⟩

/-- C8 (code bug): when the fragment fetch fails with status 404 the
diagnostic carries the fragment response's status but interpolates the
VERTEX shader URI, not the fragment URI that actually failed. -/
theorem fetch_diag_names_vertex_uri :
    compileShaders frag404Env "shaders/pixelGL.vert" "shaders/pixelGL.frag" =
      Except.ok (none,
        [Diag.fetchError "shaders/pixelGL.vert" "Not Found" 404]) ∧
    "shaders/pixelGL.vert" ≠ "shaders/pixelGL.frag" :=
  ⟨rfl, by decide⟩

/-- C4 (code bug): `translateMatrix` is not right-multiplication by
`T(tx, ty)` and is not a no-op at `(0, 0)`: on the identity matrix it sets
entry 14 to 1, it differs from the spec's translation `specTranslate`, and
on the orthographic matrix it moves entry 14 from 0 to -1. -/
theorem translateMatrix_zero_not_noop :
    (translateMatrix identityMatrix4 0 0).getD 14 0 = 1 ∧
    translateMatrix identityMatrix4 0 0 ≠ identityMatrix4 ∧
    translateMatrix identityMatrix4 0 0 ≠ specTranslate identityMatrix4 0 0 ∧
    (createOrthographicMatrix 960 640).getD 14 0 = 0 ∧
    (translateMatrix (createOrthographicMatrix 960 640) 0 0).getD 14 0 = -1 := by
  refine ⟨?_, ?_, ?_, ?_, ?_⟩
  · norm_num [translateMatrix, identityMatrix4]
  · intro h
    have h14 := congrArg (fun l => List.getD l 14 0) h
    norm_num [translateMatrix, identityMatrix4] at h14
  · intro h
    have h14 := congrArg (fun l => List.getD l 14 0) h
    norm_num [translateMatrix, specTranslate, identityMatrix4] at h14
  · norm_num [createOrthographicMatrix]
  · norm_num [translateMatrix, createOrthographicMatrix]

/-- C5: the orthographic matrix is a 16-entry list whose diagonal entries
at indices 0, 5, 10 and translation entries at indices 12, 13, 14 follow
the stated formulas with `left = 0`, `right = width`, `bottom = height`,
`top = 0`, `near = -1`, `far = 1`; for width 960 and height 640, entry 0 is
`2/960` and entry 5 is `2/(0 - 640)`. -/
theorem createOrthographicMatrix_entries (width height : ℚ) :
    (createOrthographicMatrix width height).length = 16 ∧
    (createOrthographicMatrix width height).getD 0 0 = 2 / (width - 0) ∧
    (createOrthographicMatrix width height).getD 5 0 = 2 / (0 - height) ∧
    (createOrthographicMatrix width height).getD 10 0 = 2 / (-1 - 1) ∧
    (createOrthographicMatrix width height).getD 12 0
      = (0 + width) / (0 - width) ∧
    (createOrthographicMatrix width height).getD 13 0
      = (height + 0) / (height - 0) ∧
    (createOrthographicMatrix width height).getD 14 0
      = (-1 + 1) / (-1 - 1) ∧
    (createOrthographicMatrix 960 640).getD 0 0 = 2 / 960 ∧
    (createOrthographicMatrix 960 640).getD 5 0 = 2 / (0 - 640) := by
  refine ⟨rfl, rfl, rfl, rfl, rfl, rfl, rfl,
    by norm_num [createOrthographicMatrix], by norm_num [createOrthographicMatrix]⟩

end PixelGL
